import Mathlib

/-!
Shallow embedding of the usage-metering query engine of `web3-proxy`
(`src/web3_proxy/src/stats/influxdb_queries.rs`, function `query_user_stats`),
together with theorems settling the frozen claims about it.

Machine integers of the source (u64 ids, i64 timestamps) are modelled as
`Nat`/`Int`; the only wrap-sensitive operation is `str::parse::<u64>`, whose
range check is explicit.  Floating-point payloads (`f64` inside influx
`Double` values) are never arithmetically manipulated by this code — they are
only passed through into the JSON output — so the payload is modelled as an
opaque `Int` carrier.
-/

namespace Web3Proxy

/-- Granularity of a stats request (`StatType` in `stats/mod.rs`, outside
`src/`).  Modelled from the spec: `Aggregated` (per-method detail collapsed)
or `Detailed` (per-method rows retained). -/
inductive StatType
  | Aggregated
  | Detailed
deriving DecidableEq

/-- Delegation role (`entities::sea_orm_active_enums::Role`, outside `src/`).
Modelled from the spec: Role ∈ \x7bOwner, Admin, Member, …\x7d; only Owner and
Admin grant read visibility. -/
inductive Role
  | Owner
  | Admin
  | Member
deriving DecidableEq

/-- A row of the `rpc_key` entity (entity schema outside `src/`).
Modelled from the spec: an API key has an opaque numeric id, is owned by
exactly one user, and carries a 128-bit displayable secret (a Ulid),
modelled as a `Nat`. -/
structure RpcKeyRow where
  id : Nat
  userId : Nat
  secretKey : Nat
deriving DecidableEq

/-- A row of the `secondary_user` entity (entity schema outside `src/`).
Modelled from the spec: a Delegation Relation is a
(delegate user, key-owner key, role) triple. -/
structure SecondaryUserRow where
  userId : Nat
  rpcKeyId : Nat
  role : Role
deriving DecidableEq

/-- The relational store contents visible to this engine. -/
structure Db where
  rpcKeys : List RpcKeyRow
  secondaryUsers : List SecondaryUserRow

/-- A tagged value of the time-series store
(`influxdb2_structmap::value::Value`).  Only the tags this engine inspects
are distinguished; every other tag is `otherVal`. -/
inductive FluxValue
  | str (s : String)
  | long (n : Int)
  | double (x : Int)
  | timeRFC (t : String)
  | otherVal
deriving DecidableEq

/-- A raw usage record: an unordered field-name → tagged-value map
(`FluxRecord.values`), modelled as an association list. -/
abbrev FluxRecordMap := List (String × FluxValue)

/-- The subset of `serde_json::Value` this engine produces. -/
inductive JsonValue
  | str (s : String)
  | num (n : Int)
  | bool (b : Bool)
  | arr (xs : List JsonValue)
  | obj (fields : List (String × JsonValue))

/-- The error taxonomy of the operation.  `badRequest` is
`Web3ProxyError::BadRequest`; `internalCtx` is an `anyhow`-context error
(missing handle / bucket), surfaced as an internal failure; `panicked` is a
Rust panic (the `.unwrap()` on the display map), which also fails the whole
request and is never a client error. -/
inductive Web3ProxyError
  | badRequest (msg : String)
  | internalCtx (msg : String)
  | panicked (msg : String)
deriving DecidableEq

/-- Is an error the client-correctable `BadRequest` class? -/
def Web3ProxyError.isBadRequest : Web3ProxyError → Bool
  | .badRequest _ => true
  | _ => false

/-- Is an error the Internal class — a returned internal error response
(an `anyhow` context error), as opposed to a `BadRequest` or a panic? -/
def Web3ProxyError.isInternalCtx : Web3ProxyError → Bool
  | .internalCtx _ => true
  | _ => false

/-! ## Association-list maps (model of `hashbrown::HashMap`) -/

/-- `HashMap::insert`: replace an existing binding or append a new one. -/
def alistInsert {α : Type} (k : String) (v : α) : List (String × α) → List (String × α)
  | [] => [(k, v)]
  | (k₁, v₁) :: rest =>
      if k₁ = k then (k, v) :: rest else (k₁, v₁) :: alistInsert k v rest

/-- `HashMap::get`. -/
def alistGet {α : Type} (k : String) : List (String × α) → Option α
  | [] => none
  | (k₁, v₁) :: rest => if k₁ = k then some v₁ else alistGet k rest

/-- Insert a batch of bindings in order. -/
def alistInsertMany {α : Type} (ps : List (String × α)) (m : List (String × α)) :
    List (String × α) :=
  ps.foldl (fun acc p => alistInsert p.1 p.2 acc) m

/-! ## Authorization Scope Resolver
(`query_user_stats`, lines 81-140 of `influxdb_queries.rs`) -/

/-- The Ulid display rendering (`Ulid::to_string`).  Modelled: the Crockford
base32 rendering is abstracted to an injective textual encoding of the
128-bit value; no claim inspects the concrete character set. -/
def ulidToString (n : Nat) : String := "ulid-" ++ toString n

/-- `rpc_key::Entity::find().filter(rpc_key::Column::UserId.eq(user_id))`. -/
def ownedKeyRows (db : Db) (userId : Nat) : List RpcKeyRow :=
  db.rpcKeys.filter (fun x => x.userId == userId)

/-- `secondary_user::Entity::find().filter(secondary_user::Column::UserId.eq(user_id))`. -/
def subuserRows (db : Db) (userId : Nat) : List SecondaryUserRow :=
  db.secondaryUsers.filter (fun su => su.userId == userId)

/-- `find_also_related(rpc_key::Entity)`: resolve a delegation relation to
its associated key row, if any. -/
def relatedRpcKey (db : Db) (su : SecondaryUserRow) : Option RpcKeyRow :=
  db.rpcKeys.find? (fun x => x.id == su.rpcKeyId)

/-- The (key-id string, secret) pairs contributed by directly owned keys, in
iteration order (lines 87-99): `key = x.id.to_string()`, value the Ulid. -/
def ownedKeyPairs (db : Db) (userId : Nat) : List (String × Nat) :=
  (ownedKeyRows db userId).map (fun x => (toString x.id, x.secretKey))

/-- The pairs contributed by delegations whose role is Admin or Owner
(lines 102-125); a delegation whose related key is absent, or whose role is
anything else, contributes nothing. -/
def subuserKeyPairs (db : Db) (userId : Nat) : List (String × Nat) :=
  (subuserRows db userId).filterMap (fun su =>
    match relatedRpcKey db su with
    | some sharedRpcKey =>
        if su.role = Role.Admin ∨ su.role = Role.Owner then
          some (toString sharedRpcKey.id, sharedRpcKey.secretKey)
        else none
    | none => none)

/-- `user_rpc_keys` after `user_rpc_keys.append(&mut subuser_rpc_keys)`
(line 127): the id strings used in the query filter. -/
def userRpcKeys (db : Db) (userId : Nat) : List String :=
  (ownedKeyPairs db userId).map Prod.fst ++ (subuserKeyPairs db userId).map Prod.fst

/-- `rpc_key_id_to_key`: the display map, built by inserting the owned keys
first and then the qualifying delegated keys (lines 96 and 116). -/
def rpcKeyIdToKey (db : Db) (userId : Nat) : List (String × Nat) :=
  alistInsertMany (ownedKeyPairs db userId ++ subuserKeyPairs db userId) []

/-- Spec-following definition, for comparison with the code-derived scope
(claim C1): a key id belongs to the authorization scope iff the key is owned
directly by the caller, or is delegated to the caller with role Owner or
Admin. -/
def inSpecScope (db : Db) (userId : Nat) (k : String) : Prop :=
  (∃ x ∈ db.rpcKeys, x.userId = userId ∧ k = toString x.id) ∨
  (∃ su ∈ db.secondaryUsers, su.userId = userId ∧
      (su.role = Role.Owner ∨ su.role = Role.Admin) ∧
      (∃ x ∈ db.rpcKeys, x.id = su.rpcKeyId) ∧ k = toString su.rpcKeyId)

/-! ## Analytical Query Builder
(`query_user_stats`, lines 74-78 and 136-192 of `influxdb_queries.rs`) -/

/-- Rust `format!("{:?}", vec_of_strings)`: the debug rendering of a
`Vec<String>` (the ids are decimal digit strings, so no escaping arises). -/
def formatStringVec (ids : List String) : String :=
  "[" ++ String.intercalate ", " (ids.map (fun s => "\"" ++ s ++ "\"")) ++ "]"

/-- The key-id membership filter line (line 136-139). -/
def rpcKeyFilterLine (ids : List String) : String :=
  "|> filter(fn: (r) => contains(value: r[\"rpc_secret_key_id\"], set: "
    ++ formatStringVec ids ++ "))"

/-- The chain filter line (line 153). -/
def chainIdFilterLine (chainId : Nat) : String :=
  "|> filter(fn: (r) => r[\"chain_id\"] == \"" ++ toString chainId ++ "\")"

/-- The drop-method line (line 168). -/
def dropMethodLine : String := "|> drop(columns: [\"method\"])"

/-- The measurement restriction line of the query template (line 176). -/
def measurementFilterLine (measurement : String) : String :=
  "|> filter(fn: (r) => r[\"_measurement\"] == \"" ++ measurement ++ "\")"

/-- The fixed head of the query template (lines 173-175). -/
def fluxHeadPart (bucket : String) (qs qe : Int) : String :=
  "\n    base = from(bucket: \"" ++ bucket ++ "\")\n        |> range(start: "
    ++ toString qs ++ ", stop: " ++ toString qe ++ ")\n        "

/-- The fixed tail of the query template (lines 179-192). -/
def fluxTailPart (w : Nat) : String :=
  "\n\n    base\n        |> aggregateWindow(every: " ++ toString w
    ++ "s, fn: sum, createEmpty: false)\n        |> pivot(rowKey: [\"_time\"], columnKey: [\"_field\"], valueColumn: \"_value\")\n        |> drop(columns: [\"balance\"])\n        |> group(columns: [\"_time\", \"_measurement\", \"archive_needed\", \"chain_id\", \"error_response\", \"method\", \"rpc_secret_key_id\"])\n        |> sort(columns: [\"frontend_requests\"])\n        |> map(fn:(r) => (\x7b r with \"sum_credits_used\": float(v: r[\"sum_credits_used\"]) \x7d))\n        |> cumulativeSum(columns: [\"backend_requests\", \"cache_hits\", \"cache_misses\", \"frontend_requests\", \"sum_credits_used\", \"sum_request_bytes\", \"sum_response_bytes\", \"sum_response_millis\"])\n        |> sort(columns: [\"frontend_requests\"], desc: true)\n        |> limit(n: 1)\n        |> group()\n        |> sort(columns: [\"_time\", \"_measurement\", \"archive_needed\", \"chain_id\", \"error_response\", \"method\", \"rpc_secret_key_id\"], desc: true)\n    "

/-- The full query text (lines 172-192): the interpolation of the template
with the four variable fragments. -/
def fluxQuery (bucket : String) (qs qe : Int) (rpcKeyFilter measurement
    filterChainId dropMethod : String) (w : Nat) : String :=
  fluxHeadPart bucket qs qe ++ rpcKeyFilter ++ "\n        "
    ++ measurementFilterLine measurement ++ "\n        " ++ filterChainId
    ++ "\n        " ++ dropMethod ++ fluxTailPart w

/-- The variable fragments of the built query, named as the source locals. -/
structure QueryParts where
  measurement : String
  rpcKeyFilter : String
  filterChainId : String
  dropMethod : String
  text : String

/-- The query construction: measurement from caller kind (lines 74-78),
key filter for authenticated callers (lines 83 and 136-139), chain filter
when `chain_id != 0` (lines 151-154), drop-method under Aggregated
(lines 167-170), and the interpolated text (lines 172-192). -/
def buildQueryParts (userId : Nat) (ids : List String) (chainId : Nat)
    (st : StatType) (bucket : String) (qs qe : Int) (w : Nat) : QueryParts :=
  let measurement := if userId = 0 then "global_proxy" else "opt_in_proxy"
  let rpcKeyFilter := if userId = 0 then "" else rpcKeyFilterLine ids
  let filterChainId := if chainId = 0 then "" else chainIdFilterLine chainId
  let dropMethod := match st with
    | StatType.Aggregated => dropMethodLine
    | StatType.Detailed => ""
  ⟨measurement, rpcKeyFilter, filterChainId, dropMethod,
    fluxQuery bucket qs qe rpcKeyFilter measurement filterChainId dropMethod w⟩

/-- The shape properties claim C7 asserts of the built query. -/
def queryShapeOk (userId : Nat) (ids : List String) (chainId : Nat)
    (st : StatType) (bucket : String) (qs qe : Int) (w : Nat) : Prop :=
  let p := buildQueryParts userId ids chainId st bucket qs qe w
  (p.measurement = if userId = 0 then "global_proxy" else "opt_in_proxy")
  ∧ (measurementFilterLine p.measurement).data <:+: p.text.data
  ∧ (ids = [] → p.rpcKeyFilter = "")
  ∧ (ids ≠ [] → p.rpcKeyFilter = rpcKeyFilterLine ids
      ∧ (rpcKeyFilterLine ids).data <:+: p.text.data)
  ∧ (chainId = 0 → p.filterChainId = "")
  ∧ (chainId ≠ 0 → p.filterChainId = chainIdFilterLine chainId
      ∧ (chainIdFilterLine chainId).data <:+: p.text.data)
  ∧ (st = StatType.Aggregated → p.dropMethod = dropMethodLine
      ∧ dropMethodLine.data <:+: p.text.data)
  ∧ (st = StatType.Detailed → p.dropMethod = "")

/-! ## Typed Record Decoder
(`query_user_stats`, lines 209-457 of `influxdb_queries.rs`) -/

/-- The failure raised by `rpc_key_id_to_key.get(&inner).unwrap()` on a
missing key (line 375): a Rust panic, which aborts the whole request. -/
def unwrapPanicMsg : String := "Option unwrap failed on a None value"

/-- One iteration of the `for_each` closure over a record's field map
(lines 217-452).  `ok none`: the field is ignored (unknown name, or an
unexpected type tag, which the source only logs); `ok (some (name, value))`:
the field decodes and is inserted under its renamed public name; `error`:
the key-id display lookup panicked. -/
def decodeField (st : StatType) (km : List (String × Nat)) (k : String)
    (v : FluxValue) : Except Web3ProxyError (Option (String × JsonValue)) :=
  if k = "_measurement" then
    match v with
    | .str inner =>
        .ok (some ("collection",
          if inner = "opt_in_proxy" then .str "opt-in"
          else if inner = "global_proxy" then .str "global"
          else .str "unknown"))
    | _ => .ok none
  else if k = "_stop" then
    match v with
    | .timeRFC inner => .ok (some ("stop_time", .str inner))
    | _ => .ok none
  else if k = "_time" then
    match v with
    | .timeRFC inner => .ok (some ("time", .str inner))
    | _ => .ok none
  else if k = "backend_requests" then
    match v with
    | .long inner => .ok (some ("total_backend_requests", .num inner))
    | _ => .ok none
  else if k = "balance" then
    match v with
    | .double inner => .ok (some ("balance", .num inner))
    | _ => .ok none
  else if k = "cache_hits" then
    match v with
    | .long inner => .ok (some ("total_cache_hits", .num inner))
    | _ => .ok none
  else if k = "cache_misses" then
    match v with
    | .long inner => .ok (some ("total_cache_misses", .num inner))
    | _ => .ok none
  else if k = "frontend_requests" then
    match v with
    | .long inner => .ok (some ("total_frontend_requests", .num inner))
    | _ => .ok none
  else if k = "no_servers" then
    match v with
    | .long inner => .ok (some ("no_servers", .num inner))
    | _ => .ok none
  else if k = "sum_credits_used" then
    match v with
    | .double inner => .ok (some ("total_credits_used", .num inner))
    | _ => .ok none
  else if k = "sum_request_bytes" then
    match v with
    | .long inner => .ok (some ("total_request_bytes", .num inner))
    | _ => .ok none
  else if k = "sum_response_bytes" then
    match v with
    | .long inner => .ok (some ("total_response_bytes", .num inner))
    | _ => .ok none
  else if k = "rpc_secret_key_id" then
    match v with
    | .str inner =>
        match alistGet inner km with
        | some secret => .ok (some ("rpc_key", .str (ulidToString secret)))
        | none => .error (.panicked unwrapPanicMsg)
    | _ => .ok none
  else if k = "sum_response_millis" then
    match v with
    | .long inner => .ok (some ("total_response_millis", .num inner))
    | _ => .ok none
  else if st = StatType.Detailed ∧ k = "method" then
    match v with
    | .str inner => .ok (some ("method", .str inner))
    | _ => .ok none
  else if k = "chain_id" then
    match v with
    | .str inner => .ok (some ("chain_id", .str inner))
    | _ => .ok none
  else if k = "archive_needed" then
    match v with
    | .str inner =>
        .ok (some ("archive_needed",
          if inner = "true" then .bool true
          else if inner = "false" then .bool false
          else .str "error"))
    | _ => .ok none
  else if k = "error_response" then
    match v with
    | .str inner =>
        .ok (some ("error_response",
          if inner = "true" then .bool true
          else if inner = "false" then .bool false
          else .str "error"))
    | _ => .ok none
  else .ok none

/-- The whole `for_each` loop: fold `decodeField` over the field map,
accumulating the `out` hashmap; a panic aborts everything. -/
def decodeFields (st : StatType) (km : List (String × Nat)) :
    FluxRecordMap → List (String × JsonValue) →
      Except Web3ProxyError (List (String × JsonValue))
  | [], out => .ok out
  | (k, v) :: rest, out =>
      match decodeField st km k v with
      | .error e => .error e
      | .ok none => decodeFields st km rest out
      | .ok (some (k₁, j)) => decodeFields st km rest (alistInsert k₁ j out)

/-- Decode one raw record into its output row (the `out` map, lines 216-455). -/
def decodeRecord (st : StatType) (km : List (String × Nat)) (r : FluxRecordMap) :
    Except Web3ProxyError (List (String × JsonValue)) :=
  decodeFields st km r []

/-- Decode the full response — `raw_influx_responses.into_iter().map(...)`
(lines 209-457); the first panicking record aborts the request. -/
def decodeAll (st : StatType) (km : List (String × Nat)) :
    List FluxRecordMap → Except Web3ProxyError (List JsonValue)
  | [] => .ok []
  | r :: rest =>
      match decodeRecord st km r with
      | .error e => .error e
      | .ok out =>
          match decodeAll st km rest with
          | .error e => .error e
          | .ok ds => .ok (JsonValue.obj out :: ds)

/-- The field names the decoder recognises (the `method` field is only
recognised under `Detailed`, per the guard on line 397). -/
def knownKey (st : StatType) (k : String) : Bool :=
  k == "_measurement" || k == "_stop" || k == "_time" || k == "backend_requests"
  || k == "balance" || k == "cache_hits" || k == "cache_misses"
  || k == "frontend_requests" || k == "no_servers" || k == "sum_credits_used"
  || k == "sum_request_bytes" || k == "sum_response_bytes"
  || k == "rpc_secret_key_id" || k == "sum_response_millis"
  || (st == StatType.Detailed && k == "method") || k == "chain_id"
  || k == "archive_needed" || k == "error_response"

/-- The expected-tag table of the decoder: does value `v` carry the type tag
the decoder expects for field `k`? -/
def wellTypedField (k : String) (v : FluxValue) : Bool :=
  match v with
  | .str _ =>
      k == "_measurement" || k == "rpc_secret_key_id" || k == "method"
      || k == "chain_id" || k == "archive_needed" || k == "error_response"
  | .long _ =>
      k == "backend_requests" || k == "cache_hits" || k == "cache_misses"
      || k == "frontend_requests" || k == "no_servers"
      || k == "sum_request_bytes" || k == "sum_response_bytes"
      || k == "sum_response_millis"
  | .double _ => k == "balance" || k == "sum_credits_used"
  | .timeRFC _ => k == "_stop" || k == "_time"
  | .otherVal => false

/-- The rename table from raw field names to public Report-Row names. -/
def outName (k : String) : String :=
  if k = "_measurement" then "collection"
  else if k = "_stop" then "stop_time"
  else if k = "_time" then "time"
  else if k = "backend_requests" then "total_backend_requests"
  else if k = "balance" then "balance"
  else if k = "cache_hits" then "total_cache_hits"
  else if k = "cache_misses" then "total_cache_misses"
  else if k = "frontend_requests" then "total_frontend_requests"
  else if k = "no_servers" then "no_servers"
  else if k = "sum_credits_used" then "total_credits_used"
  else if k = "sum_request_bytes" then "total_request_bytes"
  else if k = "sum_response_bytes" then "total_response_bytes"
  else if k = "rpc_secret_key_id" then "rpc_key"
  else if k = "sum_response_millis" then "total_response_millis"
  else if k = "method" then "method"
  else if k = "chain_id" then "chain_id"
  else if k = "archive_needed" then "archive_needed"
  else if k = "error_response" then "error_response"
  else k

/-- All field names any decoder branch can recognise (under any granularity). -/
def knownKeyList : List String :=
  ["_measurement", "_stop", "_time", "backend_requests", "balance",
   "cache_hits", "cache_misses", "frontend_requests", "no_servers",
   "sum_credits_used", "sum_request_bytes", "sum_response_bytes",
   "rpc_secret_key_id", "sum_response_millis", "method", "chain_id",
   "archive_needed", "error_response"]

/-! ## Usage Query Orchestrator
(`query_user_stats`, lines 30-493 of `influxdb_queries.rs`) -/

/-- Results of the `http_params` getters (lines 61-64:
`get_query_window_seconds_from_params`, `get_query_start_from_params`,
`get_query_stop_from_params`, `get_chain_id_from_params`), whose code lives
outside `src/`.  Modelled from the spec: the parsed window seconds,
start/stop timestamps and chain id (0 meaning all chains), each possibly
failing; the orchestrator only propagates their failures. -/
structure Getters where
  queryWindowSeconds : Except Web3ProxyError Nat
  queryStart : Except Web3ProxyError Int
  queryStop : Except Web3ProxyError Int
  chainId : Except Web3ProxyError Nat

/-- The application state `query_user_stats` reads from `Web3ProxyApp`: the
relational replica, the time-series client (modelled as the function from
query text to the record sequence the store returns) and the configured
bucket name. -/
structure Web3ProxyApp where
  dbReplica : Option Db
  influxdbClient : Option (String → List FluxRecordMap)
  influxdbBucket : Option String

/-- Rust `str::parse::<u64>` (line 483): an optional leading `+`, then one
or more ASCII digits, with the value required to fit in 64 bits. -/
def parseU64 (s : String) : Option Nat :=
  let ds := match s.data with
    | '+' :: rest => rest
    | l => l
  if ds = [] then none
  else if ds.all Char.isDigit then
    let n := ds.foldl (fun acc c => acc * 10 + (c.toNat - 48)) 0
    if n < 2 ^ 64 then some n else none
  else none

/-- The scope-resolution step (lines 81-140): anonymous callers get no key
filter and an empty display map; authenticated callers get their resolved
key ids and display map, or `BadRequest` when the union is empty
(lines 129-133). -/
def resolveScopeE (db : Db) (userId : Nat) :
    Except Web3ProxyError (List String × List (String × Nat)) :=
  if userId = 0 then .ok ([], [])
  else
    if userRpcKeys db userId = [] then
      .error (.badRequest "User has no secret RPC keys yet")
    else .ok (userRpcKeys db userId, rpcKeyIdToKey db userId)

/-- The observable outcome of one `query_user_stats` call: the result and
whether a query was issued to the time-series store. -/
structure QueryOutcome where
  result : Except Web3ProxyError (List (String × JsonValue))
  influxQueried : Bool

/-- The orchestrator (`query_user_stats`, lines 30-493).  `bearer` is the
already-verified caller id (`bearer_is_authorized` is an external
collaborator; absence means the sentinel id 0, lines 36-42); `params` is the
raw query-parameter map, which this function itself reads only for
`rpc_key_id` (line 481); `getters` carries the parsed window and chain
parameters. -/
def query_user_stats (app : Web3ProxyApp) (bearer : Option Nat)
    (params : List (String × String)) (getters : Getters)
    (statType : StatType) : QueryOutcome :=
  let userId := match bearer with
    | some uid => uid
    | none => 0
  if statType = StatType.Detailed ∧ userId = 0 then
    ⟨.error (.badRequest
      "Detailed Stats Response requires you to authorize with a bearer token"),
      false⟩
  else
    match app.dbReplica with
    | none => ⟨.error (.internalCtx "query_user_stats needs a db replica"), false⟩
    | some db =>
      match app.influxdbClient with
      | none =>
          ⟨.error (.internalCtx "query_user_stats needs an influxdb client"), false⟩
      | some influxdbClient =>
        match getters.queryWindowSeconds with
        | .error e => ⟨.error e, false⟩
        | .ok queryWindowSeconds =>
          match getters.queryStart with
          | .error e => ⟨.error e, false⟩
          | .ok queryStart =>
            match getters.queryStop with
            | .error e => ⟨.error e, false⟩
            | .ok queryStop =>
              match getters.chainId with
              | .error e => ⟨.error e, false⟩
              | .ok chainId =>
                if queryStart = queryStop then
                  ⟨.error (.badRequest
                    "Start and Stop date cannot be equal. Please specify a (different) start date."),
                    false⟩
                else
                  match resolveScopeE db userId with
                  | .error e => ⟨.error e, false⟩
                  | .ok (ids, keyMap) =>
                    match app.influxdbBucket with
                    | none =>
                        ⟨.error (.internalCtx "No influxdb bucket was provided"), false⟩
                    | some bucket =>
                      let parts := buildQueryParts userId ids chainId statType
                        bucket queryStart queryStop queryWindowSeconds
                      let rawInfluxResponses := influxdbClient parts.text
                      match decodeAll statType keyMap rawInfluxResponses with
                      | .error e => ⟨.error e, true⟩
                      | .ok datapoints =>
                        let body : List (String × JsonValue) :=
                          [("num_items", JsonValue.num datapoints.length),
                           ("result", JsonValue.arr datapoints),
                           ("query_window_seconds", JsonValue.num queryWindowSeconds),
                           ("query_start", JsonValue.num queryStart),
                           ("chain_id", JsonValue.num chainId)]
                        let body₂ := if userId = 0 then body
                          else body ++ [("user_id", JsonValue.num userId)]
                        match alistGet "rpc_key_id" params with
                        | none => ⟨.ok body₂, true⟩
                        | some raw =>
                          match parseU64 raw with
                          | none =>
                              ⟨.error (.badRequest "Unable to parse rpc_key_id"), true⟩
                          | some rpcKeyId =>
                              ⟨.ok (body₂ ++ [("rpc_key_id", JsonValue.num rpcKeyId)]),
                                true⟩

/-- Is an `Except` an `ok`? -/
def exceptIsOk {ε α : Type} : Except ε α → Bool
  | .ok _ => true
  | .error _ => false

/-! ## Concrete fixtures used by the witness theorems -/

/-- A database with one key owned by user 7, one Admin delegation of key 9
to user 7, and one Member delegation of key 11 to user 7. -/
def wDb : Db :=
  ⟨[⟨3, 7, 100⟩, ⟨9, 8, 200⟩, ⟨11, 8, 300⟩],
   [⟨7, 9, Role.Admin⟩, ⟨7, 11, Role.Member⟩]⟩

/-- A store client returning no records at all. -/
def wClientEmpty : String → List FluxRecordMap := fun _ => []

/-- A store client returning one record whose key id `99` is not in any
resolved display map. -/
def wClientBadKey : String → List FluxRecordMap :=
  fun _ => [[("rpc_secret_key_id", FluxValue.str "99")]]

/-- A fully-configured application over `wDb` with an empty store. -/
def wApp : Web3ProxyApp := ⟨some wDb, some wClientEmpty, some "web3_proxy"⟩

/-- A fully-configured application over `wDb` whose store returns a record
with an unresolvable key id. -/
def wAppBadKey : Web3ProxyApp := ⟨some wDb, some wClientBadKey, some "web3_proxy"⟩

/-- Getters for the spec scenario: window 300 s, range 1000-2000, chain 1. -/
def wGetters : Getters := ⟨.ok 300, .ok 1000, .ok 2000, .ok 1⟩

/-- A database in which user 7 owns nothing and has only a Member
delegation. -/
def wDbNoKeys : Db := ⟨[⟨11, 8, 300⟩], [⟨7, 11, Role.Member⟩]⟩

/-- A fully-configured application over `wDbNoKeys`. -/
def wAppNoKeys : Web3ProxyApp := ⟨some wDbNoKeys, some wClientEmpty, some "web3_proxy"⟩

/-- The raw record of the spec concrete scenario, with its
`frontend_requests` field carrying an unexpected String tag. -/
def wRecordOneBad : FluxRecordMap :=
  [("_time", FluxValue.timeRFC "1300"),
   ("chain_id", FluxValue.str "1"),
   ("rpc_secret_key_id", FluxValue.str "3"),
   ("frontend_requests", FluxValue.str "oops"),
   ("archive_needed", FluxValue.str "false"),
   ("error_response", FluxValue.str "false")]

/-- The display map of the spec concrete scenario. -/
def wKeyMap : List (String × Nat) := [("3", 100), ("9", 200)]

/-- Getters whose parsed window has `start == stop`. -/
def wGettersEq : Getters := ⟨.ok 300, .ok 1000, .ok 1000, .ok 1⟩

/-- A record carrying only the two out-of-schema fields. -/
def wRecordExtra : FluxRecordMap :=
  [("balance", FluxValue.double 5), ("no_servers", FluxValue.long 2)]

/-! ## Theorems -/

theorem alistGet_insert {α : Type} (k k₁ : String) (v : α) (m : List (String × α)) :
    alistGet k (alistInsert k₁ v m) = if k₁ = k then some v else alistGet k m := by
  induction m with
  | nil => simp [alistInsert, alistGet]
  | cons hd tl ih =>
      obtain ⟨k₂, v₂⟩ := hd
      by_cases h₂ : k₂ = k₁
      · subst h₂
        by_cases h₃ : k₂ = k <;> simp [alistInsert, alistGet, h₃]
      · by_cases h₃ : k₂ = k
        · subst h₃
          have h₄ : ¬(k₁ = k₂) := fun hx => h₂ hx.symm
          simp [alistInsert, alistGet, h₂, h₄]
        · simp [alistInsert, alistGet, h₂, h₃, ih]

theorem alistGet_insertMany_isSome {α : Type} (k : String) (ps : List (String × α))
    (m : List (String × α)) :
    (alistGet k (alistInsertMany ps m)).isSome
      = (decide (k ∈ ps.map Prod.fst) || (alistGet k m).isSome) := by
  induction ps generalizing m with
  | nil => simp [alistInsertMany]
  | cons hd tl ih =>
      obtain ⟨k₁, v₁⟩ := hd
      have step : alistInsertMany ((k₁, v₁) :: tl) m
          = alistInsertMany tl (alistInsert k₁ v₁ m) := rfl
      rw [step, ih, alistGet_insert]
      by_cases h : k₁ = k
      · subst h; simp
      · have h₂ : ¬(k = k₁) := fun hx => h hx.symm
        have h₃ : (k == k₁) = false := beq_eq_false_iff_ne.mpr h₂
        simp [h, h₂, h₃]

theorem mem_ownedKeys_iff (db : Db) (userId : Nat) (k : String) :
    k ∈ (ownedKeyPairs db userId).map Prod.fst
      ↔ ∃ x ∈ db.rpcKeys, x.userId = userId ∧ k = toString x.id := by
  simp only [ownedKeyPairs, ownedKeyRows, List.map_map, List.mem_map,
    List.mem_filter, beq_iff_eq, Function.comp]
  constructor
  · rintro ⟨x, ⟨hmem, huid⟩, hk⟩
    exact ⟨x, hmem, huid, hk.symm⟩
  · rintro ⟨x, hmem, huid, hk⟩
    exact ⟨x, ⟨hmem, huid⟩, hk.symm⟩

theorem mem_subuserKeys_iff (db : Db) (userId : Nat) (k : String) :
    k ∈ (subuserKeyPairs db userId).map Prod.fst
      ↔ ∃ su ∈ db.secondaryUsers, su.userId = userId ∧
          (su.role = Role.Owner ∨ su.role = Role.Admin) ∧
          (∃ x ∈ db.rpcKeys, x.id = su.rpcKeyId) ∧ k = toString su.rpcKeyId := by
  simp only [subuserKeyPairs, subuserRows, List.mem_map, List.mem_filterMap,
    List.mem_filter, beq_iff_eq]
  constructor
  · rintro ⟨⟨k₁, v₁⟩, ⟨su, ⟨hmem, huid⟩, hf⟩, hk⟩
    rcases hrel : relatedRpcKey db su with _ | shared
    · rw [hrel] at hf; cases hf
    · simp only [hrel] at hf
      by_cases hrole : su.role = Role.Admin ∨ su.role = Role.Owner
      · rw [if_pos hrole] at hf
        obtain ⟨hk₁, hv₁⟩ := Prod.mk.injEq .. ▸ Option.some.injEq .. ▸ hf
        have hfind := List.find?_some hrel
        have hid : shared.id = su.rpcKeyId := by
          simpa [beq_iff_eq] using hfind
        have hsharedMem : shared ∈ db.rpcKeys := List.mem_of_find?_eq_some hrel
        refine ⟨su, hmem, huid, hrole.symm, ⟨shared, hsharedMem, hid⟩, ?_⟩
        rw [← hk]
        show k₁ = toString su.rpcKeyId
        rw [← hk₁, hid]
      · rw [if_neg hrole] at hf; cases hf
  · rintro ⟨su, hmem, huid, hrole, ⟨x, hxmem, hxid⟩, hk⟩
    have hsome : (db.rpcKeys.find? (fun y => y.id == su.rpcKeyId)).isSome := by
      rw [List.find?_isSome]
      exact ⟨x, hxmem, by simp [beq_iff_eq, hxid]⟩
    obtain ⟨shared, hshared⟩ := Option.isSome_iff_exists.mp hsome
    have hid : shared.id = su.rpcKeyId := by
      simpa [beq_iff_eq] using List.find?_some hshared
    have hrole₂ : su.role = Role.Admin ∨ su.role = Role.Owner := hrole.symm.imp id id
    refine ⟨(toString shared.id, shared.secretKey), ⟨su, ⟨hmem, huid⟩, ?_⟩, ?_⟩
    · have hrel : relatedRpcKey db su = some shared := hshared
      simp only [hrel]
      rw [if_pos hrole₂]
    · simp only [hk, hid]

/-- C1: for an authenticated caller, the resolved authorization scope — the
set of key-id strings used in the query filter (`user_rpc_keys`) and the key
set of the display map (`rpc_key_id_to_key`) — equals the union of the ids
of directly owned keys and the ids of keys delegated with role Owner or
Admin; a delegation with any other role (e.g. Member) never contributes. -/
theorem resolved_scope_eq_spec_scope (db : Db) (userId : Nat) (k : String) :
    (k ∈ userRpcKeys db userId ↔ inSpecScope db userId k) ∧
    ((alistGet k (rpcKeyIdToKey db userId)).isSome = true ↔ inSpecScope db userId k) := by
  have hmain : k ∈ userRpcKeys db userId ↔ inSpecScope db userId k := by
    rw [userRpcKeys, List.mem_append, inSpecScope]
    exact or_congr (mem_ownedKeys_iff db userId k) (mem_subuserKeys_iff db userId k)
  refine ⟨hmain, ?_⟩
  rw [rpcKeyIdToKey, alistGet_insertMany_isSome, List.map_append]
  have hempty : (alistGet k ([] : List (String × Nat))).isSome = false := rfl
  rw [hempty, Bool.or_false]
  simpa only [decide_eq_true_eq] using hmain

theorem isInfix_of_data_eq (m text : String) (a b : List Char)
    (h : text.data = a ++ m.data ++ b) : m.data <:+: text.data :=
  ⟨a, b, h.symm⟩

/-- C7: the built query restricts to `global_proxy` for anonymous callers
and `opt_in_proxy` for authenticated ones; it contains the key-id membership
filter exactly when the resolved filter set is non-empty, the chain filter
exactly when `chain_id != 0`, and the drop of the method column exactly when
granularity is Aggregated.  The hypothesis records the resolver invariants:
anonymous callers have an empty filter set, and an authenticated caller that
reaches query construction has a non-empty one. -/
theorem built_query_shape (userId : Nat) (ids : List String) (chainId : Nat)
    (st : StatType) (bucket : String) (qs qe : Int) (w : Nat)
    (h : (userId = 0 → ids = []) ∧ (userId ≠ 0 → ids ≠ [])) :
    queryShapeOk userId ids chainId st bucket qs qe w := by
  obtain ⟨hanon, hauth⟩ := h
  unfold queryShapeOk buildQueryParts
  refine ⟨rfl, ?_, ?_, ?_, ?_, ?_, ?_, ?_⟩
  · apply isInfix_of_data_eq _ _
      ((fluxHeadPart bucket qs qe
        ++ (if userId = 0 then "" else rpcKeyFilterLine ids) ++ "\n        ").data)
      (("\n        " ++ (if chainId = 0 then "" else chainIdFilterLine chainId)
        ++ "\n        "
        ++ (match st with
            | StatType.Aggregated => dropMethodLine
            | StatType.Detailed => "") ++ fluxTailPart w).data)
    simp [fluxQuery, String.data_append, List.append_assoc]
  · intro hnil
    by_cases hu : userId = 0
    · simp [hu]
    · exact absurd hnil (hauth hu)
  · intro hnonnil
    have hu : userId ≠ 0 := fun h0 => hnonnil (hanon h0)
    refine ⟨by simp [hu], ?_⟩
    apply isInfix_of_data_eq _ _ ((fluxHeadPart bucket qs qe).data)
      (("\n        "
        ++ measurementFilterLine (if userId = 0 then "global_proxy" else "opt_in_proxy")
        ++ "\n        " ++ (if chainId = 0 then "" else chainIdFilterLine chainId)
        ++ "\n        "
        ++ (match st with
            | StatType.Aggregated => dropMethodLine
            | StatType.Detailed => "") ++ fluxTailPart w).data)
    simp [fluxQuery, hu, String.data_append, List.append_assoc]
  · intro hc; simp [hc]
  · intro hc
    refine ⟨by simp [hc], ?_⟩
    apply isInfix_of_data_eq _ _
      ((fluxHeadPart bucket qs qe
        ++ (if userId = 0 then "" else rpcKeyFilterLine ids) ++ "\n        "
        ++ measurementFilterLine (if userId = 0 then "global_proxy" else "opt_in_proxy")
        ++ "\n        ").data)
      (("\n        "
        ++ (match st with
            | StatType.Aggregated => dropMethodLine
            | StatType.Detailed => "") ++ fluxTailPart w).data)
    simp [fluxQuery, hc, String.data_append, List.append_assoc]
  · intro hst
    refine ⟨by simp [hst], ?_⟩
    apply isInfix_of_data_eq _ _
      ((fluxHeadPart bucket qs qe
        ++ (if userId = 0 then "" else rpcKeyFilterLine ids) ++ "\n        "
        ++ measurementFilterLine (if userId = 0 then "global_proxy" else "opt_in_proxy")
        ++ "\n        " ++ (if chainId = 0 then "" else chainIdFilterLine chainId)
        ++ "\n        ").data)
      ((fluxTailPart w).data)
    simp [fluxQuery, hst, String.data_append, List.append_assoc]
  · intro hst; simp [hst]

theorem decodeField_unknown (st : StatType) (km : List (String × Nat))
    (k : String) (v : FluxValue) (h : knownKey st k = false) :
    decodeField st km k v = .ok none := by
  simp only [knownKey, Bool.or_eq_false_iff, Bool.and_eq_false_iff,
    beq_eq_false_iff_ne, ne_eq] at h
  obtain ⟨⟨⟨⟨⟨⟨⟨⟨⟨⟨⟨⟨⟨⟨⟨⟨⟨h₁, h₂⟩, h₃⟩, h₄⟩, h₅⟩, h₆⟩, h₇⟩, h₈⟩, h₉⟩,
    h₁₀⟩, h₁₁⟩, h₁₂⟩, h₁₃⟩, h₁₄⟩, hm⟩, h₁₆⟩, h₁₇⟩, h₁₈⟩ := h
  have hm' : ¬(st = StatType.Detailed ∧ k = "method") := by
    rcases hm with hx | hx
    · exact fun hc => hx hc.1
    · exact fun hc => hx hc.2
  unfold decodeField
  rw [if_neg h₁, if_neg h₂, if_neg h₃, if_neg h₄, if_neg h₅, if_neg h₆,
    if_neg h₇, if_neg h₈, if_neg h₉, if_neg h₁₀, if_neg h₁₁, if_neg h₁₂,
    if_neg h₁₃, if_neg h₁₄, if_neg hm', if_neg h₁₆, if_neg h₁₇, if_neg h₁₈]

theorem decodeField_mismatch (st : StatType) (km : List (String × Nat))
    (k : String) (v : FluxValue) (hk : knownKey st k = true)
    (hv : wellTypedField k v = false) :
    decodeField st km k v = .ok none := by
  simp only [knownKey, Bool.or_eq_true, beq_iff_eq, Bool.and_eq_true] at hk
  rcases hk with
    (((((((((((((((((h|h)|h)|h)|h)|h)|h)|h)|h)|h)|h)|h)|h)|h)|hmeth)|h)|h)|h)
  all_goals
    first
      | (subst h; cases v <;> simp_all [decodeField, wellTypedField])
      | (obtain ⟨hst, hkm⟩ := hmeth; subst hst; subst hkm;
          cases v <;> simp_all [decodeField, wellTypedField])

theorem decodeField_wellTyped (st : StatType) (km : List (String × Nat))
    (k : String) (v : FluxValue) (hk : knownKey st k = true)
    (hv : wellTypedField k v = true)
    (hkey : ∀ s, v = FluxValue.str s → k = "rpc_secret_key_id" →
        (alistGet s km).isSome = true) :
    ∃ j, decodeField st km k v = .ok (some (outName k, j)) := by
  simp only [knownKey, Bool.or_eq_true, beq_iff_eq, Bool.and_eq_true] at hk
  rcases hk with
    (((((((((((((((((h|h)|h)|h)|h)|h)|h)|h)|h)|h)|h)|h)|hrpc)|h)|hmeth)|h)|h)|h)
  · subst h; cases v <;> simp_all [decodeField, wellTypedField, outName]
  · subst h; cases v <;> simp_all [decodeField, wellTypedField, outName]
  · subst h; cases v <;> simp_all [decodeField, wellTypedField, outName]
  · subst h; cases v <;> simp_all [decodeField, wellTypedField, outName]
  · subst h; cases v <;> simp_all [decodeField, wellTypedField, outName]
  · subst h; cases v <;> simp_all [decodeField, wellTypedField, outName]
  · subst h; cases v <;> simp_all [decodeField, wellTypedField, outName]
  · subst h; cases v <;> simp_all [decodeField, wellTypedField, outName]
  · subst h; cases v <;> simp_all [decodeField, wellTypedField, outName]
  · subst h; cases v <;> simp_all [decodeField, wellTypedField, outName]
  · subst h; cases v <;> simp_all [decodeField, wellTypedField, outName]
  · subst h; cases v <;> simp_all [decodeField, wellTypedField, outName]
  · subst hrpc
    cases v with
    | str s =>
        obtain ⟨secret, hsec⟩ := Option.isSome_iff_exists.mp (hkey s rfl rfl)
        exact ⟨JsonValue.str (ulidToString secret),
          by simp [decodeField, outName, hsec]⟩
    | long n => simp_all [wellTypedField]
    | double x => simp_all [wellTypedField]
    | timeRFC t => simp_all [wellTypedField]
    | otherVal => simp_all [wellTypedField]
  · subst h; cases v <;> simp_all [decodeField, wellTypedField, outName]
  · obtain ⟨hst, hkm⟩ := hmeth; subst hst; subst hkm
    cases v <;> simp_all [decodeField, wellTypedField, outName]
  · subst h; cases v <;> simp_all [decodeField, wellTypedField, outName]
  · subst h; cases v <;> simp_all [decodeField, wellTypedField, outName]
  · subst h; cases v <;> simp_all [decodeField, wellTypedField, outName]

theorem decodeField_some_inv (st : StatType) (km : List (String × Nat))
    (k : String) (v : FluxValue) (k₁ : String) (j : JsonValue)
    (h : decodeField st km k v = .ok (some (k₁, j))) :
    k₁ = outName k ∧ knownKey st k = true ∧ wellTypedField k v = true := by
  cases hk : knownKey st k with
  | false => rw [decodeField_unknown st km k v hk] at h; cases h
  | true =>
    cases hv : wellTypedField k v with
    | false => rw [decodeField_mismatch st km k v hk hv] at h; cases h
    | true =>
      refine ⟨?_, rfl, rfl⟩
      have hk₂ := hk
      simp only [knownKey, Bool.or_eq_true, beq_iff_eq, Bool.and_eq_true] at hk₂
      clear hk hv
      rcases hk₂ with
        (((((((((((((((((hx|hx)|hx)|hx)|hx)|hx)|hx)|hx)|hx)|hx)|hx)|hx)|hrpc)|hx)|hmeth)|hx)|hx)|hx)
      · subst hx; cases v <;> simp [decodeField] at h <;>
          obtain ⟨h₁, h₂⟩ := h <;>
          (first | (rw [← h₁]; simp [outName]) | (rw [h₁]; simp [outName]))
      · subst hx; cases v <;> simp [decodeField] at h <;>
          obtain ⟨h₁, h₂⟩ := h <;>
          (first | (rw [← h₁]; simp [outName]) | (rw [h₁]; simp [outName]))
      · subst hx; cases v <;> simp [decodeField] at h <;>
          obtain ⟨h₁, h₂⟩ := h <;>
          (first | (rw [← h₁]; simp [outName]) | (rw [h₁]; simp [outName]))
      · subst hx; cases v <;> simp [decodeField] at h <;>
          obtain ⟨h₁, h₂⟩ := h <;>
          (first | (rw [← h₁]; simp [outName]) | (rw [h₁]; simp [outName]))
      · subst hx; cases v <;> simp [decodeField] at h <;>
          obtain ⟨h₁, h₂⟩ := h <;>
          (first | (rw [← h₁]; simp [outName]) | (rw [h₁]; simp [outName]))
      · subst hx; cases v <;> simp [decodeField] at h <;>
          obtain ⟨h₁, h₂⟩ := h <;>
          (first | (rw [← h₁]; simp [outName]) | (rw [h₁]; simp [outName]))
      · subst hx; cases v <;> simp [decodeField] at h <;>
          obtain ⟨h₁, h₂⟩ := h <;>
          (first | (rw [← h₁]; simp [outName]) | (rw [h₁]; simp [outName]))
      · subst hx; cases v <;> simp [decodeField] at h <;>
          obtain ⟨h₁, h₂⟩ := h <;>
          (first | (rw [← h₁]; simp [outName]) | (rw [h₁]; simp [outName]))
      · subst hx; cases v <;> simp [decodeField] at h <;>
          obtain ⟨h₁, h₂⟩ := h <;>
          (first | (rw [← h₁]; simp [outName]) | (rw [h₁]; simp [outName]))
      · subst hx; cases v <;> simp [decodeField] at h <;>
          obtain ⟨h₁, h₂⟩ := h <;>
          (first | (rw [← h₁]; simp [outName]) | (rw [h₁]; simp [outName]))
      · subst hx; cases v <;> simp [decodeField] at h <;>
          obtain ⟨h₁, h₂⟩ := h <;>
          (first | (rw [← h₁]; simp [outName]) | (rw [h₁]; simp [outName]))
      · subst hx; cases v <;> simp [decodeField] at h <;>
          obtain ⟨h₁, h₂⟩ := h <;>
          (first | (rw [← h₁]; simp [outName]) | (rw [h₁]; simp [outName]))
      · subst hrpc
        cases v with
        | str s =>
            rcases halist : alistGet s km with _ | secret <;>
              simp [decodeField, halist] at h <;>
              obtain ⟨h₁, h₂⟩ := h <;>
              (first | (rw [← h₁]; simp [outName]) | (rw [h₁]; simp [outName]))
        | long n => simp [decodeField] at h
        | double x => simp [decodeField] at h
        | timeRFC t => simp [decodeField] at h
        | otherVal => simp [decodeField] at h
      · subst hx; cases v <;> simp [decodeField] at h <;>
          obtain ⟨h₁, h₂⟩ := h <;>
          (first | (rw [← h₁]; simp [outName]) | (rw [h₁]; simp [outName]))
      · obtain ⟨hst, hkm⟩ := hmeth; subst hst; subst hkm
        cases v <;> simp [decodeField] at h <;>
          obtain ⟨h₁, h₂⟩ := h <;>
          (first | (rw [← h₁]; simp [outName]) | (rw [h₁]; simp [outName]))
      · subst hx; cases v <;> simp [decodeField] at h <;>
          obtain ⟨h₁, h₂⟩ := h <;>
          (first | (rw [← h₁]; simp [outName]) | (rw [h₁]; simp [outName]))
      · subst hx; cases v <;> simp [decodeField] at h <;>
          obtain ⟨h₁, h₂⟩ := h <;>
          (first | (rw [← h₁]; simp [outName]) | (rw [h₁]; simp [outName]))
      · subst hx; cases v <;> simp [decodeField] at h <;>
          obtain ⟨h₁, h₂⟩ := h <;>
          (first | (rw [← h₁]; simp [outName]) | (rw [h₁]; simp [outName]))

theorem decodeField_error_panicked (st : StatType) (km : List (String × Nat))
    (k : String) (v : FluxValue) (e : Web3ProxyError)
    (h : decodeField st km k v = .error e) :
    e = Web3ProxyError.panicked unwrapPanicMsg := by
  cases hk : knownKey st k with
  | false => rw [decodeField_unknown st km k v hk] at h; cases h
  | true =>
    cases hv : wellTypedField k v with
    | false => rw [decodeField_mismatch st km k v hk hv] at h; cases h
    | true =>
      have hk₂ := hk
      simp only [knownKey, Bool.or_eq_true, beq_iff_eq, Bool.and_eq_true] at hk₂
      rcases hk₂ with
        (((((((((((((((((hx|hx)|hx)|hx)|hx)|hx)|hx)|hx)|hx)|hx)|hx)|hx)|hrpc)|hx)|hmeth)|hx)|hx)|hx)
      · subst hx; cases v <;> simp_all [decodeField]
      · subst hx; cases v <;> simp_all [decodeField]
      · subst hx; cases v <;> simp_all [decodeField]
      · subst hx; cases v <;> simp_all [decodeField]
      · subst hx; cases v <;> simp_all [decodeField]
      · subst hx; cases v <;> simp_all [decodeField]
      · subst hx; cases v <;> simp_all [decodeField]
      · subst hx; cases v <;> simp_all [decodeField]
      · subst hx; cases v <;> simp_all [decodeField]
      · subst hx; cases v <;> simp_all [decodeField]
      · subst hx; cases v <;> simp_all [decodeField]
      · subst hx; cases v <;> simp_all [decodeField]
      · subst hrpc
        cases v with
        | str s =>
            rcases halist : alistGet s km with _ | secret <;>
              simp_all [decodeField]
        | long n => simp_all [decodeField]
        | double x => simp_all [decodeField]
        | timeRFC t => simp_all [decodeField]
        | otherVal => simp_all [decodeField]
      · subst hx; cases v <;> simp_all [decodeField]
      · obtain ⟨hst, hkm⟩ := hmeth; subst hst; subst hkm
        cases v <;> simp_all [decodeField]
      · subst hx; cases v <;> simp_all [decodeField]
      · subst hx; cases v <;> simp_all [decodeField]
      · subst hx; cases v <;> simp_all [decodeField]

theorem mem_knownKeyList_of_knownKey (st : StatType) (k : String)
    (h : knownKey st k = true) : k ∈ knownKeyList := by
  simp only [knownKey, Bool.or_eq_true, beq_iff_eq, Bool.and_eq_true] at h
  rcases h with
    (((((((((((((((((hx|hx)|hx)|hx)|hx)|hx)|hx)|hx)|hx)|hx)|hx)|hx)|hx)|hx)|hmeth)|hx)|hx)|hx)
  all_goals
    first
      | (subst hx; simp [knownKeyList])
      | (obtain ⟨hst, hkm⟩ := hmeth; subst hkm; simp [knownKeyList])

theorem outName_inj_on_list :
    ∀ k₁ ∈ knownKeyList, ∀ k₂ ∈ knownKeyList,
      outName k₁ = outName k₂ → k₁ = k₂ := by decide

theorem decodeFields_mono (st : StatType) (km : List (String × Nat))
    (r : FluxRecordMap) (init out : List (String × JsonValue)) (k₁ : String)
    (hrun : decodeFields st km r init = .ok out)
    (hsome : (alistGet k₁ init).isSome = true) :
    (alistGet k₁ out).isSome = true := by
  induction r generalizing init with
  | nil =>
      simp only [decodeFields, Except.ok.injEq] at hrun
      subst hrun; exact hsome
  | cons hd tl ih =>
      obtain ⟨k, v⟩ := hd
      unfold decodeFields at hrun
      rcases hdf : decodeField st km k v with e | o
      · simp [hdf] at hrun
      · rcases o with _ | ⟨k₂, j⟩
        · simp only [hdf] at hrun
          exact ih _ hrun hsome
        · simp only [hdf] at hrun
          refine ih _ hrun ?_
          rw [alistGet_insert]
          by_cases hkk : k₂ = k₁
          · simp [hkk]
          · simp [hkk, hsome]

theorem decodeFields_mem_some (st : StatType) (km : List (String × Nat))
    (r : FluxRecordMap) (init out : List (String × JsonValue))
    (k : String) (v : FluxValue) (k₁ : String) (j : JsonValue)
    (hrun : decodeFields st km r init = .ok out)
    (hmem : (k, v) ∈ r)
    (hdf : decodeField st km k v = .ok (some (k₁, j))) :
    (alistGet k₁ out).isSome = true := by
  induction r generalizing init with
  | nil => cases hmem
  | cons hd tl ih =>
      obtain ⟨k₂, v₂⟩ := hd
      unfold decodeFields at hrun
      rcases List.mem_cons.mp hmem with heq | htl
      · cases heq
        simp only [hdf] at hrun
        refine decodeFields_mono st km tl _ out k₁ hrun ?_
        rw [alistGet_insert]
        simp
      · rcases hdf₂ : decodeField st km k₂ v₂ with e | o
        · simp [hdf₂] at hrun
        · rcases o with _ | ⟨k₃, j₃⟩
          · simp only [hdf₂] at hrun
            exact ih _ hrun htl
          · simp only [hdf₂] at hrun
            exact ih _ hrun htl

theorem decodeFields_absent (st : StatType) (km : List (String × Nat))
    (r : FluxRecordMap) (init out : List (String × JsonValue)) (k₁ : String)
    (hrun : decodeFields st km r init = .ok out)
    (hinit : alistGet k₁ init = none)
    (hno : ∀ p ∈ r, ∀ j, decodeField st km p.1 p.2 ≠ .ok (some (k₁, j))) :
    alistGet k₁ out = none := by
  induction r generalizing init with
  | nil =>
      simp only [decodeFields, Except.ok.injEq] at hrun
      subst hrun; exact hinit
  | cons hd tl ih =>
      obtain ⟨k, v⟩ := hd
      unfold decodeFields at hrun
      rcases hdf : decodeField st km k v with e | o
      · simp [hdf] at hrun
      · rcases o with _ | ⟨k₂, j⟩
        · simp only [hdf] at hrun
          exact ih _ hrun hinit (fun p hp => hno p (List.mem_cons_of_mem _ hp))
        · simp only [hdf] at hrun
          have hne : k₂ ≠ k₁ := by
            intro hcontra
            subst hcontra
            exact hno (k, v) (List.mem_cons_self _ _) j hdf
          refine ih _ hrun ?_ (fun p hp => hno p (List.mem_cons_of_mem _ hp))
          rw [alistGet_insert, if_neg hne]
          exact hinit

theorem decodeFields_ok_of_no_error (st : StatType) (km : List (String × Nat))
    (r : FluxRecordMap) (init : List (String × JsonValue))
    (h : ∀ p ∈ r, ∀ e, decodeField st km p.1 p.2 ≠ .error e) :
    ∃ out, decodeFields st km r init = .ok out := by
  induction r generalizing init with
  | nil => exact ⟨init, rfl⟩
  | cons hd tl ih =>
      obtain ⟨k, v⟩ := hd
      rcases hdf : decodeField st km k v with e | o
      · exact absurd hdf (h (k, v) (List.mem_cons_self _ _) e)
      · rcases o with _ | ⟨k₂, j⟩
        · obtain ⟨out, hout⟩ := ih init (fun p hp => h p (List.mem_cons_of_mem _ hp))
          exact ⟨out, by unfold decodeFields; simp only [hdf]; exact hout⟩
        · obtain ⟨out, hout⟩ :=
            ih (alistInsert k₂ j init) (fun p hp => h p (List.mem_cons_of_mem _ hp))
          exact ⟨out, by unfold decodeFields; simp only [hdf]; exact hout⟩

theorem decodeFields_error_of_mem (st : StatType) (km : List (String × Nat))
    (r : FluxRecordMap) (init : List (String × JsonValue))
    (k : String) (v : FluxValue) (e : Web3ProxyError)
    (hmem : (k, v) ∈ r) (hdf : decodeField st km k v = .error e) :
    ∃ e₁, decodeFields st km r init = .error e₁ := by
  induction r generalizing init with
  | nil => cases hmem
  | cons hd tl ih =>
      obtain ⟨k₂, v₂⟩ := hd
      rcases List.mem_cons.mp hmem with heq | htl
      · cases heq
        exact ⟨e, by unfold decodeFields; simp only [hdf]⟩
      · rcases hdf₂ : decodeField st km k₂ v₂ with e₂ | o
        · exact ⟨e₂, by unfold decodeFields; simp only [hdf₂]⟩
        · rcases o with _ | ⟨k₃, j₃⟩
          · obtain ⟨e₁, h₁⟩ := ih init htl
            exact ⟨e₁, by unfold decodeFields; simp only [hdf₂]; exact h₁⟩
          · obtain ⟨e₁, h₁⟩ := ih (alistInsert k₃ j₃ init) htl
            exact ⟨e₁, by unfold decodeFields; simp only [hdf₂]; exact h₁⟩

theorem decodeFields_error_panicked (st : StatType) (km : List (String × Nat))
    (r : FluxRecordMap) (init : List (String × JsonValue)) (e : Web3ProxyError)
    (h : decodeFields st km r init = .error e) :
    e = Web3ProxyError.panicked unwrapPanicMsg := by
  induction r generalizing init with
  | nil => simp [decodeFields] at h
  | cons hd tl ih =>
      obtain ⟨k, v⟩ := hd
      unfold decodeFields at h
      rcases hdf : decodeField st km k v with e₂ | o
      · simp only [hdf, Except.error.injEq] at h
        subst h
        exact decodeField_error_panicked st km k v e₂ hdf
      · rcases o with _ | ⟨k₁, j⟩ <;> simp only [hdf] at h
        · exact ih _ h
        · exact ih _ h

theorem decodeAll_error_of_mem (st : StatType) (km : List (String × Nat))
    (recs : List FluxRecordMap) (r : FluxRecordMap) (e : Web3ProxyError)
    (hmem : r ∈ recs) (hr : decodeRecord st km r = .error e) :
    ∃ e₁, decodeAll st km recs = .error e₁ := by
  induction recs with
  | nil => cases hmem
  | cons r₂ rest ih =>
      rcases List.mem_cons.mp hmem with heq | htl
      · subst heq
        exact ⟨e, by unfold decodeAll; simp only [hr]⟩
      · rcases hr₂ : decodeRecord st km r₂ with e₂ | out₂
        · exact ⟨e₂, by unfold decodeAll; simp only [hr₂]⟩
        · obtain ⟨e₁, h₁⟩ := ih htl
          refine ⟨e₁, ?_⟩
          unfold decodeAll
          simp only [hr₂, h₁]

theorem decodeAll_error_panicked (st : StatType) (km : List (String × Nat))
    (recs : List FluxRecordMap) (e : Web3ProxyError)
    (h : decodeAll st km recs = .error e) :
    e = Web3ProxyError.panicked unwrapPanicMsg := by
  induction recs generalizing e with
  | nil => simp [decodeAll] at h
  | cons r rest ih =>
      unfold decodeAll at h
      rcases hr : decodeRecord st km r with e₂ | out
      · simp only [hr, Except.error.injEq] at h
        subst h
        exact decodeFields_error_panicked st km r [] e₂ hr
      · simp only [hr] at h
        rcases ha : decodeAll st km rest with e₃ | ds
        · simp only [ha, Except.error.injEq] at h
          subst h
          exact ih e₃ ha
        · simp [ha] at h

theorem values_eq_of_keys_nodup {β : Type} (r : List (String × β))
    (hnodup : (r.map Prod.fst).Nodup) (k : String) (a b : β)
    (ha : (k, a) ∈ r) (hb : (k, b) ∈ r) : a = b := by
  induction r with
  | nil => cases ha
  | cons hd tl ih =>
      obtain ⟨k₂, v₂⟩ := hd
      simp only [List.map_cons, List.nodup_cons] at hnodup
      obtain ⟨hnotin, htl⟩ := hnodup
      rcases List.mem_cons.mp ha with haeq | hatl <;>
        rcases List.mem_cons.mp hb with hbeq | hbtl
      · cases haeq; cases hbeq; rfl
      · cases haeq
        exact absurd (List.mem_map_of_mem Prod.fst hbtl) hnotin
      · cases hbeq
        exact absurd (List.mem_map_of_mem Prod.fst hatl) hnotin
      · exact ih htl hatl hbtl

/-- C4: a request with `granularity = Detailed` and an anonymous caller
(no bearer, sentinel user id 0) returns `BadRequest`, regardless of every
other parameter — the check (lines 44-49) precedes everything else. -/
theorem detailed_requires_bearer (app : Web3ProxyApp)
    (params : List (String × String)) (getters : Getters) :
    (query_user_stats app none params getters StatType.Detailed).result
      = .error (.badRequest
          "Detailed Stats Response requires you to authorize with a bearer token") := rfl

/-- C5: whenever the parsed window has `start == stop` — and the handles
and parameter getters that are consulted first succeed — the operation
returns `BadRequest` (lines 66-72), for every caller kind, chain id,
granularity and key situation. -/
theorem equal_window_bounds_bad_request (app : Web3ProxyApp)
    (bearer : Option Nat) (params : List (String × String)) (getters : Getters)
    (statType : StatType) (db : Db) (client : String → List FluxRecordMap)
    (w : Nat) (s : Int) (c : Nat)
    (hdb : app.dbReplica = some db)
    (hcl : app.influxdbClient = some client)
    (hw : getters.queryWindowSeconds = .ok w)
    (hs : getters.queryStart = .ok s)
    (hstop : getters.queryStop = .ok s)
    (hc : getters.chainId = .ok c) :
    ∃ msg, (query_user_stats app bearer params getters statType).result
      = .error (.badRequest msg) := by
  unfold query_user_stats
  simp only [hdb, hcl, hw, hs, hstop, hc]
  by_cases hfirst : statType = StatType.Detailed
      ∧ (match bearer with | some uid => uid | none => 0) = 0
  · rw [if_pos hfirst]
    exact ⟨_, rfl⟩
  · rw [if_neg hfirst, if_pos trivial]
    exact ⟨_, rfl⟩

/-- C6: an authenticated caller for whom the owned-keys lookup and the
qualifying (Owner/Admin) delegated-keys lookup both return nothing gets
`BadRequest` (lines 129-133), before any time-series query is built or
issued. -/
theorem no_visible_keys_bad_request (app : Web3ProxyApp)
    (params : List (String × String)) (getters : Getters)
    (statType : StatType) (db : Db) (client : String → List FluxRecordMap)
    (uid : Nat) (w : Nat) (s₁ s₂ : Int) (c : Nat)
    (hdb : app.dbReplica = some db)
    (hcl : app.influxdbClient = some client)
    (hw : getters.queryWindowSeconds = .ok w)
    (hs : getters.queryStart = .ok s₁)
    (hstop : getters.queryStop = .ok s₂)
    (hc : getters.chainId = .ok c)
    (hneq : s₁ ≠ s₂)
    (huid : uid ≠ 0)
    (howned : ownedKeyRows db uid = [])
    (hdeleg : subuserKeyPairs db uid = []) :
    (query_user_stats app (some uid) params getters statType).result
      = .error (.badRequest "User has no secret RPC keys yet")
    ∧ (query_user_stats app (some uid) params getters statType).influxQueried
      = false := by
  have hids : userRpcKeys db uid = [] := by
    simp [userRpcKeys, ownedKeyPairs, howned, hdeleg]
  have hscope : resolveScopeE db uid
      = .error (.badRequest "User has no secret RPC keys yet") := by
    unfold resolveScopeE
    rw [if_neg huid, if_pos hids]
  have hfirst : ¬(statType = StatType.Detailed
      ∧ (match some uid with | some u => u | none => 0) = 0) := by
    intro hcontra
    exact huid hcontra.2
  unfold query_user_stats
  simp only [hdb, hcl, hw, hs, hstop, hc]
  rw [if_neg hfirst, if_neg hneq]
  simp only [hscope]
  constructor <;> first | trivial | rfl

/-- C2 counterexample: on a concrete run where the store returns a record
whose String-tagged key id 99 is absent from the resolved display map
(keys 3 and 9), the operation fails by the `.unwrap()` panic of line 375 —
a Rust panic, which is not a returned Internal-class error response (and
not a `BadRequest` either), contrary to the claim that such a record fails
the request with an Internal-class error. -/
theorem missing_display_key_panics_counterexample :
    (query_user_stats wAppBadKey (some 7) [] wGetters
        StatType.Aggregated).result
      = .error (.panicked unwrapPanicMsg)
    ∧ (Web3ProxyError.panicked unwrapPanicMsg).isInternalCtx = false
    ∧ (Web3ProxyError.panicked unwrapPanicMsg).isBadRequest = false :=
  ⟨rfl, rfl, rfl⟩

/-- C2 (amended): when the store returns a record whose key-id field is
String-tagged but absent from the resolved display map, the whole request
fails via the Rust panic of the `.unwrap()` on line 375 — a failure that is
not a client `BadRequest` (and not a returned Internal-class error
response).  The hypotheses state that the run reaches decoding: handles,
bucket and getters are present, the window is non-empty, the early Detailed
check passes, and scope resolution succeeded with display map `km`. -/
theorem missing_display_key_fails_request (app : Web3ProxyApp)
    (params : List (String × String)) (getters : Getters)
    (statType : StatType) (db : Db) (client : String → List FluxRecordMap)
    (bucket : String) (uid : Nat) (w : Nat) (qs qe : Int) (cid : Nat)
    (ids : List String) (km : List (String × Nat)) (r : FluxRecordMap) (s : String)
    (hdb : app.dbReplica = some db)
    (hcl : app.influxdbClient = some client)
    (hbucket : app.influxdbBucket = some bucket)
    (hw : getters.queryWindowSeconds = .ok w)
    (hs : getters.queryStart = .ok qs)
    (hstop : getters.queryStop = .ok qe)
    (hc : getters.chainId = .ok cid)
    (hneq : qs ≠ qe)
    (hnotdet : ¬(statType = StatType.Detailed ∧ uid = 0))
    (hscope : resolveScopeE db uid = .ok (ids, km))
    (hrec : r ∈ client
      (buildQueryParts uid ids cid statType bucket qs qe w).text)
    (hfield : ("rpc_secret_key_id", FluxValue.str s) ∈ r)
    (hmiss : alistGet s km = none) :
    ∃ e, (query_user_stats app (some uid) params getters statType).result
        = .error e
      ∧ e = Web3ProxyError.panicked unwrapPanicMsg
      ∧ e.isBadRequest = false
      ∧ (query_user_stats app (some uid) params getters statType).influxQueried
        = true := by
  have hdf : decodeField statType km "rpc_secret_key_id" (FluxValue.str s)
      = .error (.panicked unwrapPanicMsg) := by
    simp [decodeField, hmiss]
  obtain ⟨e₁, he₁⟩ :=
    decodeFields_error_of_mem statType km r [] "rpc_secret_key_id"
      (FluxValue.str s) (.panicked unwrapPanicMsg) hfield hdf
  obtain ⟨e₂, he₂⟩ :=
    decodeAll_error_of_mem statType km _ r e₁ hrec he₁
  have hfirst : ¬(statType = StatType.Detailed
      ∧ (match some uid with | some u => u | none => 0) = 0) := hnotdet
  have hpan := decodeAll_error_panicked statType km _ e₂ he₂
  refine ⟨e₂, ?_, hpan, by rw [hpan]; rfl, ?_⟩ <;>
    (unfold query_user_stats
     simp only [hdb, hcl, hw, hs, hstop, hc]
     rw [if_neg hfirst, if_neg hneq]
     simp only [hscope, hbucket, he₂])

/-- C3 counterexample: with a malformed `rpc_key_id = "abc"` parameter and
an otherwise valid anonymous request, the operation does return
`BadRequest`, but only after the time-series query has been issued
(`influxQueried = true`) — the parse happens at response assembly
(lines 481-486), after `query_raw` (line 199); it does not abort before
querying the store, contrary to the claim. -/
theorem rpc_key_id_parse_after_query_counterexample :
    (query_user_stats wApp none [("rpc_key_id", "abc")] wGetters
        StatType.Aggregated).result
      = .error (.badRequest "Unable to parse rpc_key_id")
    ∧ (query_user_stats wApp none [("rpc_key_id", "abc")] wGetters
        StatType.Aggregated).influxQueried = true := ⟨rfl, rfl⟩

/-- C3 (amended): for every request — any caller kind and any granularity —
whose `rpc_key_id` parameter does not parse as a u64 and which otherwise
reaches response assembly (handles, bucket and getters present, non-empty
window, the Detailed check passed, scope resolved, and the store's records
decoded cleanly), the operation returns `BadRequest`, but only at response
assembly (lines 481-486), after the time-series query has been issued
(line 199): `influxQueried = true`, not an abort before querying. -/
theorem malformed_rpc_key_id_bad_request_after_query (app : Web3ProxyApp)
    (bearer : Option Nat) (params : List (String × String)) (getters : Getters)
    (statType : StatType) (db : Db) (client : String → List FluxRecordMap)
    (bucket : String) (userId : Nat) (w : Nat) (qs qe : Int) (cid : Nat)
    (ids : List String) (km : List (String × Nat)) (dps : List JsonValue)
    (raw : String)
    (huser : (match bearer with | some u => u | none => 0) = userId)
    (hdb : app.dbReplica = some db)
    (hcl : app.influxdbClient = some client)
    (hbucket : app.influxdbBucket = some bucket)
    (hw : getters.queryWindowSeconds = .ok w)
    (hs : getters.queryStart = .ok qs)
    (hstop : getters.queryStop = .ok qe)
    (hc : getters.chainId = .ok cid)
    (hneq : qs ≠ qe)
    (hnotdet : ¬(statType = StatType.Detailed ∧ userId = 0))
    (hscope : resolveScopeE db userId = .ok (ids, km))
    (hdecode : decodeAll statType km
      (client (buildQueryParts userId ids cid statType bucket qs qe w).text)
      = .ok dps)
    (hparam : alistGet "rpc_key_id" params = some raw)
    (hraw : parseU64 raw = none) :
    (query_user_stats app bearer params getters statType).result
      = .error (.badRequest "Unable to parse rpc_key_id")
    ∧ (query_user_stats app bearer params getters statType).influxQueried
      = true := by
  unfold query_user_stats
  simp only [huser, hdb, hcl, hw, hs, hstop, hc]
  rw [if_neg hnotdet, if_neg hneq]
  simp only [hscope, hbucket, hdecode, hparam, hraw]
  constructor <;> first | trivial | rfl

/-- C9: a String-tagged `archive_needed` or `error_response` field decodes
to boolean `true` exactly for the string "true", boolean `false` exactly for
"false", and the sentinel string "error" for every other string
(lines 415-451); and these two fields never fail the record, whatever the
tag. -/
theorem boolish_fields_decode (st : StatType) (km : List (String × Nat))
    (s : String) (v : FluxValue) :
    decodeField st km "archive_needed" (FluxValue.str s)
      = .ok (some ("archive_needed",
          if s = "true" then JsonValue.bool true
          else if s = "false" then JsonValue.bool false
          else JsonValue.str "error"))
    ∧ decodeField st km "error_response" (FluxValue.str s)
      = .ok (some ("error_response",
          if s = "true" then JsonValue.bool true
          else if s = "false" then JsonValue.bool false
          else JsonValue.str "error"))
    ∧ exceptIsOk (decodeField st km "archive_needed" v) = true
    ∧ exceptIsOk (decodeField st km "error_response" v) = true := by
  refine ⟨?_, ?_, ?_, ?_⟩
  · simp [decodeField]
  · simp [decodeField]
  · cases v <;> simp [decodeField, exceptIsOk]
  · cases v <;> simp [decodeField, exceptIsOk]

/-- C10: the decoder does not restrict its output to the public Report-Row
schema: a Double-tagged `balance` field (lines 279-287) and a Long-tagged
`no_servers` field (lines 324-335) each decode to an output entry of the
same name, and a successfully decoded record containing such a field has
that entry in its output row. -/
theorem undocumented_fields_pass_through (st : StatType)
    (km : List (String × Nat)) (x n : Int) (r : FluxRecordMap)
    (out : List (String × JsonValue))
    (hrun : decodeRecord st km r = .ok out) :
    decodeField st km "balance" (FluxValue.double x)
      = .ok (some ("balance", JsonValue.num x))
    ∧ decodeField st km "no_servers" (FluxValue.long n)
      = .ok (some ("no_servers", JsonValue.num n))
    ∧ (("balance", FluxValue.double x) ∈ r →
        (alistGet "balance" out).isSome = true)
    ∧ (("no_servers", FluxValue.long n) ∈ r →
        (alistGet "no_servers" out).isSome = true) := by
  refine ⟨by simp [decodeField], by simp [decodeField], ?_, ?_⟩
  · intro hmem
    exact decodeFields_mem_some st km r [] out "balance" (FluxValue.double x)
      "balance" (JsonValue.num x) hrun hmem (by simp [decodeField])
  · intro hmem
    exact decodeFields_mem_some st km r [] out "no_servers" (FluxValue.long n)
      "no_servers" (JsonValue.num n) hrun hmem (by simp [decodeField])

/-- C8: in a record whose fields have distinct names, where exactly one
known field carries an unexpected type tag (and any well-typed key-id field
resolves in the display map), decoding succeeds, the output row contains an
entry for every other known field of the record, and the renamed entry of
the mismatched field alone is absent. -/
theorem mismatched_field_discards_only_that_field (st : StatType)
    (km : List (String × Nat)) (r : FluxRecordMap) (k₀ : String) (v₀ : FluxValue)
    (hmem : (k₀, v₀) ∈ r)
    (hnodup : (r.map Prod.fst).Nodup)
    (hknown : knownKey st k₀ = true)
    (hbad : wellTypedField k₀ v₀ = false)
    (hothers : ∀ p ∈ r, p.1 ≠ k₀ → knownKey st p.1 = true →
        wellTypedField p.1 p.2 = true)
    (hkeyid : ∀ p ∈ r, ∀ s, p.2 = FluxValue.str s →
        p.1 = "rpc_secret_key_id" → (alistGet s km).isSome = true) :
    ∃ out, decodeRecord st km r = .ok out
      ∧ (∀ p ∈ r, p.1 ≠ k₀ → knownKey st p.1 = true →
          (alistGet (outName p.1) out).isSome = true)
      ∧ alistGet (outName k₀) out = none := by
  have hnoerr : ∀ p ∈ r, ∀ e, decodeField st km p.1 p.2 ≠ .error e := by
    intro p hp e hcontra
    cases hk : knownKey st p.1 with
    | false =>
        rw [decodeField_unknown st km p.1 p.2 hk] at hcontra; cases hcontra
    | true =>
      cases hv : wellTypedField p.1 p.2 with
      | false =>
          rw [decodeField_mismatch st km p.1 p.2 hk hv] at hcontra
          cases hcontra
      | true =>
          obtain ⟨j, hj⟩ := decodeField_wellTyped st km p.1 p.2 hk hv
            (fun s hs hrpc => hkeyid p hp s hs hrpc)
          rw [hj] at hcontra; cases hcontra
  obtain ⟨out, hout⟩ := decodeFields_ok_of_no_error st km r [] hnoerr
  refine ⟨out, hout, ?_, ?_⟩
  · intro p hp hne hkp
    have hvp := hothers p hp hne hkp
    obtain ⟨j, hj⟩ := decodeField_wellTyped st km p.1 p.2 hkp hvp
      (fun s hs hrpc => hkeyid p hp s hs hrpc)
    exact decodeFields_mem_some st km r [] out p.1 p.2 (outName p.1) j hout
      (by simpa using hp) hj
  · refine decodeFields_absent st km r [] out (outName k₀) hout rfl ?_
    intro p hp j hcontra
    obtain ⟨hname, hkp, hvp⟩ :=
      decodeField_some_inv st km p.1 p.2 (outName k₀) j hcontra
    have hmem₁ := mem_knownKeyList_of_knownKey st p.1 hkp
    have hmem₀ := mem_knownKeyList_of_knownKey st k₀ hknown
    have hpk : p.1 = k₀ := outName_inj_on_list p.1 hmem₁ k₀ hmem₀ hname.symm
    have hpmem : (k₀, p.2) ∈ r := by rw [← hpk]; simpa using hp
    have hv₀ : p.2 = v₀ := values_eq_of_keys_nodup r hnodup k₀ p.2 v₀ hpmem hmem
    rw [hpk, hv₀] at hvp
    rw [hvp] at hbad
    cases hbad

/-- Witness for C5 at a concrete input. -/
theorem equal_window_bounds_bad_request_witness :
    (wApp.dbReplica = some wDb
      ∧ wApp.influxdbClient = some wClientEmpty
      ∧ wGettersEq.queryWindowSeconds = Except.ok 300
      ∧ wGettersEq.queryStart = Except.ok 1000
      ∧ wGettersEq.queryStop = Except.ok 1000
      ∧ wGettersEq.chainId = Except.ok 1)
    ∧ ∃ msg, (query_user_stats wApp none [] wGettersEq
        StatType.Aggregated).result = .error (.badRequest msg) :=
  ⟨⟨rfl, rfl, rfl, rfl, rfl, rfl⟩,
    equal_window_bounds_bad_request wApp none [] wGettersEq StatType.Aggregated
      wDb wClientEmpty 300 1000 1 rfl rfl rfl rfl rfl rfl⟩

/-- Witness for C6 at a concrete input. -/
theorem no_visible_keys_bad_request_witness :
    (wAppNoKeys.dbReplica = some wDbNoKeys
      ∧ wAppNoKeys.influxdbClient = some wClientEmpty
      ∧ wGetters.queryWindowSeconds = Except.ok 300
      ∧ wGetters.queryStart = Except.ok 1000
      ∧ wGetters.queryStop = Except.ok 2000
      ∧ wGetters.chainId = Except.ok 1
      ∧ (1000 : Int) ≠ 2000
      ∧ (7 : Nat) ≠ 0
      ∧ ownedKeyRows wDbNoKeys 7 = []
      ∧ subuserKeyPairs wDbNoKeys 7 = [])
    ∧ (query_user_stats wAppNoKeys (some 7) [] wGetters
        StatType.Aggregated).result
      = .error (.badRequest "User has no secret RPC keys yet")
    ∧ (query_user_stats wAppNoKeys (some 7) [] wGetters
        StatType.Aggregated).influxQueried = false :=
  ⟨⟨rfl, rfl, rfl, rfl, rfl, rfl, by decide, by decide, rfl, rfl⟩,
    no_visible_keys_bad_request wAppNoKeys [] wGetters StatType.Aggregated
      wDbNoKeys wClientEmpty 7 300 1000 2000 1
      rfl rfl rfl rfl rfl rfl (by decide) (by decide) rfl rfl⟩

/-- Witness for C7 at the spec concrete scenario. -/
theorem built_query_shape_witness :
    ((7 = 0 → (["3", "9"] : List String) = [])
      ∧ (7 ≠ 0 → (["3", "9"] : List String) ≠ []))
    ∧ queryShapeOk 7 ["3", "9"] 1 StatType.Aggregated "web3_proxy"
        1000 2000 300 :=
  ⟨⟨by decide, by decide⟩,
    built_query_shape 7 ["3", "9"] 1 StatType.Aggregated "web3_proxy"
      1000 2000 300 ⟨by decide, by decide⟩⟩

/-- Witness for C2 at a concrete input: the store returns a record whose
key id 99 is not in the resolved display map of user 7. -/
theorem missing_display_key_fails_request_witness :
    (wAppBadKey.dbReplica = some wDb
      ∧ wAppBadKey.influxdbClient = some wClientBadKey
      ∧ wAppBadKey.influxdbBucket = some "web3_proxy"
      ∧ wGetters.queryWindowSeconds = Except.ok 300
      ∧ wGetters.queryStart = Except.ok 1000
      ∧ wGetters.queryStop = Except.ok 2000
      ∧ wGetters.chainId = Except.ok 1
      ∧ (1000 : Int) ≠ 2000
      ∧ ¬(StatType.Aggregated = StatType.Detailed ∧ 7 = 0)
      ∧ resolveScopeE wDb 7 = .ok (["3", "9"], wKeyMap)
      ∧ [("rpc_secret_key_id", FluxValue.str "99")] ∈ wClientBadKey
          (buildQueryParts 7 ["3", "9"] 1 StatType.Aggregated "web3_proxy"
            1000 2000 300).text
      ∧ ("rpc_secret_key_id", FluxValue.str "99")
          ∈ [("rpc_secret_key_id", FluxValue.str "99")]
      ∧ alistGet "99" wKeyMap = none)
    ∧ ∃ e, (query_user_stats wAppBadKey (some 7) [] wGetters
          StatType.Aggregated).result = .error e
        ∧ e = Web3ProxyError.panicked unwrapPanicMsg
        ∧ e.isBadRequest = false
        ∧ (query_user_stats wAppBadKey (some 7) [] wGetters
            StatType.Aggregated).influxQueried = true :=
  ⟨⟨rfl, rfl, rfl, rfl, rfl, rfl, rfl, by decide, by decide, rfl,
      by simp [wClientBadKey], by simp, rfl⟩,
    missing_display_key_fails_request wAppBadKey [] wGetters
      StatType.Aggregated wDb wClientBadKey "web3_proxy" 7 300 1000 2000 1
      ["3", "9"] wKeyMap [("rpc_secret_key_id", FluxValue.str "99")] "99"
      rfl rfl rfl rfl rfl rfl rfl (by decide) (by decide) rfl
      (by simp [wClientBadKey]) (by simp) rfl⟩

/-- Witness for the amended C3 at a concrete input. -/
theorem malformed_rpc_key_id_bad_request_after_query_witness :
    ((match (none : Option Nat) with | some u => u | none => 0) = 0
      ∧ wApp.dbReplica = some wDb
      ∧ wApp.influxdbClient = some wClientEmpty
      ∧ wApp.influxdbBucket = some "web3_proxy"
      ∧ wGetters.queryWindowSeconds = Except.ok 300
      ∧ wGetters.queryStart = Except.ok 1000
      ∧ wGetters.queryStop = Except.ok 2000
      ∧ wGetters.chainId = Except.ok 1
      ∧ (1000 : Int) ≠ 2000
      ∧ ¬(StatType.Aggregated = StatType.Detailed ∧ 0 = 0)
      ∧ resolveScopeE wDb 0 = .ok ([], [])
      ∧ decodeAll StatType.Aggregated []
          (wClientEmpty (buildQueryParts 0 [] 1 StatType.Aggregated
            "web3_proxy" 1000 2000 300).text) = .ok []
      ∧ alistGet "rpc_key_id" [("rpc_key_id", "abc")] = some "abc"
      ∧ parseU64 "abc" = none)
    ∧ (query_user_stats wApp none [("rpc_key_id", "abc")] wGetters
        StatType.Aggregated).result
      = .error (.badRequest "Unable to parse rpc_key_id")
    ∧ (query_user_stats wApp none [("rpc_key_id", "abc")] wGetters
        StatType.Aggregated).influxQueried = true :=
  ⟨⟨rfl, rfl, rfl, rfl, rfl, rfl, rfl, rfl, by decide, by decide,
      rfl, rfl, rfl, rfl⟩,
    malformed_rpc_key_id_bad_request_after_query wApp none
      [("rpc_key_id", "abc")] wGetters StatType.Aggregated wDb wClientEmpty
      "web3_proxy" 0 300 1000 2000 1 [] [] [] "abc"
      rfl rfl rfl rfl rfl rfl rfl rfl (by decide) (by decide)
      rfl rfl rfl rfl⟩

/-- Witness for C8 at the spec concrete record with a mistyped
`frontend_requests` field. -/
theorem mismatched_field_discards_only_that_field_witness :
    (("frontend_requests", FluxValue.str "oops") ∈ wRecordOneBad
      ∧ (wRecordOneBad.map Prod.fst).Nodup
      ∧ knownKey StatType.Aggregated "frontend_requests" = true
      ∧ wellTypedField "frontend_requests" (FluxValue.str "oops") = false
      ∧ (∀ p ∈ wRecordOneBad, p.1 ≠ "frontend_requests" →
          knownKey StatType.Aggregated p.1 = true →
          wellTypedField p.1 p.2 = true)
      ∧ (∀ p ∈ wRecordOneBad, ∀ s, p.2 = FluxValue.str s →
          p.1 = "rpc_secret_key_id" → (alistGet s wKeyMap).isSome = true))
    ∧ ∃ out, decodeRecord StatType.Aggregated wKeyMap wRecordOneBad = .ok out
        ∧ (∀ p ∈ wRecordOneBad, p.1 ≠ "frontend_requests" →
            knownKey StatType.Aggregated p.1 = true →
            (alistGet (outName p.1) out).isSome = true)
        ∧ alistGet (outName "frontend_requests") out = none :=
  ⟨⟨by decide, by decide, rfl, rfl, by decide, by
      intro p hp s hs hrpc
      have hp₂ : p ∈ ([("_time", FluxValue.timeRFC "1300"),
          ("chain_id", FluxValue.str "1"),
          ("rpc_secret_key_id", FluxValue.str "3"),
          ("frontend_requests", FluxValue.str "oops"),
          ("archive_needed", FluxValue.str "false"),
          ("error_response", FluxValue.str "false")] : FluxRecordMap) := hp
      fin_cases hp₂ <;> simp_all [wKeyMap, alistGet]⟩,
    mismatched_field_discards_only_that_field StatType.Aggregated wKeyMap
      wRecordOneBad "frontend_requests" (FluxValue.str "oops")
      (by decide) (by decide) rfl rfl (by decide) (by
        intro p hp s hs hrpc
        have hp₂ : p ∈ ([("_time", FluxValue.timeRFC "1300"),
            ("chain_id", FluxValue.str "1"),
            ("rpc_secret_key_id", FluxValue.str "3"),
            ("frontend_requests", FluxValue.str "oops"),
            ("archive_needed", FluxValue.str "false"),
            ("error_response", FluxValue.str "false")] : FluxRecordMap) := hp
        fin_cases hp₂ <;> simp_all [wKeyMap, alistGet])⟩

/-- Witness for C10 at a concrete record. -/
theorem undocumented_fields_pass_through_witness :
    decodeRecord StatType.Aggregated [] wRecordExtra
      = .ok [("balance", JsonValue.num 5), ("no_servers", JsonValue.num 2)]
    ∧ (decodeField StatType.Aggregated [] "balance" (FluxValue.double 5)
        = .ok (some ("balance", JsonValue.num 5))
      ∧ decodeField StatType.Aggregated [] "no_servers" (FluxValue.long 2)
        = .ok (some ("no_servers", JsonValue.num 2))
      ∧ (("balance", FluxValue.double 5) ∈ wRecordExtra →
          (alistGet "balance"
            [("balance", JsonValue.num 5), ("no_servers", JsonValue.num 2)]).isSome
            = true)
      ∧ (("no_servers", FluxValue.long 2) ∈ wRecordExtra →
          (alistGet "no_servers"
            [("balance", JsonValue.num 5), ("no_servers", JsonValue.num 2)]).isSome
            = true)) :=
  ⟨rfl,
    undocumented_fields_pass_through StatType.Aggregated [] 5 2 wRecordExtra
      [("balance", JsonValue.num 5), ("no_servers", JsonValue.num 2)] rfl⟩

end Web3Proxy

